import Mathlib

/-
  Verification development for the bevy_html repository.

  This file shallowly embeds the parts of the source needed to settle the
  frozen claims:
    * src/named_system_registry.rs : the named-function dispatch table with
      checkout semantics (NamedSystemRegistry::call_reflect / call).
    * src/htmx.rs : the trigger pipeline find_to_run |> run_x_funcs |>
      swap_system and its swap/target enums.
    * src/typed_partial_reflect_deserializer.rs : the typed partial
      deserializer (TypedPartialReflectDeserializer, StructVisitor).
    * src/lib.rs : construct_instance, spawn_scene's helper and
      spawn_scene_system.

  Rust machine behaviour is made explicit: an Option::unwrap / expect /
  panic! that can fire is modelled as a dedicated "panic" outcome
  constructor, distinct from recoverable error returns; all interpreters
  are fueled so that every definition is executable and kernel-reducible.
-/

namespace BevyHtml

/- ===================================================================
   Part 1: named_system_registry.rs
   ===================================================================
   A registered entry is the triple stored in
   NamedSystemRegistry.systems (input TypeId, output TypeId) together
   with the callable held on the registry entity.  The two option slots
   of the Rust code (NamedSystem.0 and CallNamedSystem.0) are taken out
   and restored at the same points of every call, so one option slot
   models both.  TypeId is modelled as Nat.  The body of a registered
   system is modelled as a program: a list of further named calls (the
   part of a system body that the registry can observe); its returned
   value has the registered output type id by construction of
   register_named_system. -/

structure NVal where
  ty : Nat
  data : Nat
deriving DecidableEq, Repr

inductive NCmd where
  | callNamed (name : String) (arg : NVal)
deriving DecidableEq, Repr

structure NEntry where
  inTy : Nat
  outTy : Nat
  retData : Nat
  slot : Option (List NCmd)
deriving DecidableEq, Repr

abbrev NWorld := List (String × NEntry)

/-- Outcome of NamedSystemRegistry::call_reflect.  `ok` is
Some(result) with the world after the call; `unknownName` is the None
returned by `self.systems.get(name)?`; `panicO` is a Rust panic
(an unwrap that fired); `stuck` means the interpreter ran out of fuel. -/
inductive NOut where
  | ok (w : NWorld) (ret : NVal)
  | panicO
  | unknownName
  | stuck
deriving DecidableEq, Repr

/-- Outcome of running a system body (a list of registry calls). -/
inductive RunOut where
  | okRun (w : NWorld)
  | panicRun
  | stuckRun
deriving DecidableEq, Repr

def lookupN (w : NWorld) (n : String) : Option NEntry :=
  match w with
  | [] => none
  | (k, e) :: rest => if k = n then some e else lookupN rest n

def setSlotN (w : NWorld) (n : String) (s : Option (List NCmd)) : NWorld :=
  match w with
  | [] => []
  | (k, e) :: rest =>
    if k = n then (k, { e with slot := s }) :: rest else (k, e) :: setSlotN rest n s

mutual
/-- NamedSystemRegistry::call_reflect (named_system_registry.rs:56-68).
`systems.get(name)?` yields `unknownName` when absent; the callable is
taken out of its slot (`.take().unwrap()` panics if the slot is already
empty, i.e. the entry is mid-call); inside the callable the input is
downcast to the registered input type (`in_ref.downcast().unwrap()`
panics on a type-id mismatch); the system body runs against the world
with the slot emptied; finally the callable is put back. -/
def call_reflect (fuel : Nat) (w : NWorld) (name : String) (arg : NVal) : NOut :=
  match fuel with
  | 0 => .stuck
  | fuel + 1 =>
    match lookupN w name with
    | none => .unknownName
    | some e =>
      match e.slot with
      | none => .panicO
      | some prog =>
        if arg.ty = e.inTy then
          match runProg fuel (setSlotN w name none) prog with
          | .okRun w2 => .ok (setSlotN w2 name (some prog)) ⟨e.outTy, e.retData⟩
          | .panicRun => .panicO
          | .stuckRun => .stuck
        else .panicO

/-- Runs a system body: each command is a further call through the
registry (a panic aborts everything; an unknown name yields None to the
body, which continues). -/
def runProg (fuel : Nat) (w : NWorld) (prog : List NCmd) : RunOut :=
  match fuel with
  | 0 => .stuckRun
  | fuel + 1 =>
    match prog with
    | [] => .okRun w
    | NCmd.callNamed n a :: rest =>
      match call_reflect fuel w n a with
      | .ok w' _ => runProg fuel w' rest
      | .unknownName => runProg fuel w rest
      | .panicO => .panicRun
      | .stuck => .stuckRun
end

lemma lookupN_setSlotN_self (w : NWorld) (n : String) (s : Option (List NCmd)) :
    lookupN (setSlotN w n s) n = (lookupN w n).map (fun e => { e with slot := s }) := by
  induction w with
  | nil => rfl
  | cons he rest ih =>
    obtain ⟨k, e⟩ := he
    by_cases h : k = n
    · simp [setSlotN, lookupN, h]
    · simp [setSlotN, lookupN, h, ih]

lemma lookupN_setSlotN_other (w : NWorld) (n m : String) (s : Option (List NCmd))
    (h : m ≠ n) : lookupN (setSlotN w n s) m = lookupN w m := by
  induction w with
  | nil => rfl
  | cons he rest ih =>
    obtain ⟨k, e⟩ := he
    by_cases hk : k = n
    · subst hk
      have hkm : ¬ (k = m) := fun hh => h (hh.symm)
      simp [setSlotN, lookupN, hkm]
    · by_cases hm : k = m
      · subst hm
        simp [setSlotN, lookupN, hk]
      · simp [setSlotN, lookupN, hk, hm, ih]

/-- A completed (Some-returning) call through the registry leaves every
entry of the table exactly as it was: each nested completed call
restores what it checked out, and the outer call restores the callable
it took.  Proved jointly for call_reflect and runProg by fuel
induction. -/
lemma reg_restores_all : ∀ fuel : Nat,
    (∀ w name arg w' r, call_reflect fuel w name arg = NOut.ok w' r →
      ∀ m, lookupN w' m = lookupN w m) ∧
    (∀ w p w', runProg fuel w p = RunOut.okRun w' →
      ∀ m, lookupN w' m = lookupN w m) := by
  intro fuel
  induction fuel with
  | zero =>
    constructor
    · intro w name arg w' r h
      simp [call_reflect] at h
    · intro w p w' h
      simp [runProg] at h
  | succ fuel ih =>
    constructor
    · intro w name arg w' r h m
      rw [call_reflect] at h
      split at h
      · simp at h
      · rename_i e hl
        split at h
        · simp at h
        · rename_i prog hs
          split at h
          · rename_i hty
            split at h
            · rename_i w2 hr
              simp only [NOut.ok.injEq] at h
              obtain ⟨hw, -⟩ := h
              subst hw
              have h2 := ih.2 _ _ _ hr
              by_cases hm : m = name
              · subst hm
                rw [lookupN_setSlotN_self, h2 m, lookupN_setSlotN_self, hl]
                obtain ⟨it, ot, rd, sl⟩ := e
                simp only [Option.map_some']
                simp only at hs
                rw [hs]
              · rw [lookupN_setSlotN_other _ _ _ _ hm, h2 m,
                  lookupN_setSlotN_other _ _ _ _ hm]
            · simp at h
            · simp at h
          · simp at h
    · intro w p w' h m
      rw [runProg.eq_def] at h
      simp only at h
      split at h
      · simp only [RunOut.okRun.injEq] at h
        subst h; rfl
      · rename_i n a rest
        split at h
        · rename_i w1 r1 hc
          rw [ih.2 _ _ _ h m, ih.1 _ _ _ _ _ hc m]
        · exact ih.2 _ _ _ h m
        · simp at h
        · simp at h

/-- A call to an entry whose callable is checked out (slot empty) hits
the `take().unwrap()` of call_reflect and panics. -/
lemma call_reflect_checkedout (fuel : Nat) (w : NWorld) (name : String) (arg : NVal)
    (e : NEntry) (hl : lookupN w name = some e) (hs : e.slot = none) :
    call_reflect (fuel + 1) w name arg = NOut.panicO := by
  simp only [call_reflect, hl, hs]

/-- C1: every call through the named-function table removes the
callable from its table slot for the duration of the call and restores
it afterward.  Part 1: after any completed call the entry for the
called name (indeed every entry) is present and callable again, exactly
as before the call.  Part 2: a function whose body starts by calling
its own name by name fails (the checked-out slot is empty, so the
`take().unwrap()` of the nested call panics) rather than deadlocking or
obtaining a second aliased reference to the running callable. -/
theorem c1_checkout_restores_and_blocks_reentry :
    (∀ fuel w name arg w' ret, call_reflect fuel w name arg = NOut.ok w' ret →
      lookupN w' name = lookupN w name) ∧
    (∀ fuel w name arg e a rest, lookupN w name = some e →
      e.slot = some (NCmd.callNamed name a :: rest) → arg.ty = e.inTy →
      call_reflect (fuel + 3) w name arg = NOut.panicO) := by
  constructor
  · intro fuel w name arg w' ret h
    exact (reg_restores_all fuel).1 w name arg w' ret h name
  · intro fuel w name arg e a rest hl hs hty
    have hl1 : lookupN (setSlotN w name none) name = some { e with slot := none } := by
      rw [lookupN_setSlotN_self, hl]; rfl
    have hinner : call_reflect (fuel + 1) (setSlotN w name none) name a = NOut.panicO :=
      call_reflect_checkedout fuel _ name a _ hl1 rfl
    have hrun : runProg (fuel + 2) (setSlotN w name none) (NCmd.callNamed name a :: rest)
        = RunOut.panicRun := by
      simp only [runProg, hinner]
    simp only [call_reflect, hl, hs, if_pos hty, hrun]

def nW1 : NWorld := [("f", ⟨0, 0, 7, some []⟩)]
def nW2 : NWorld := [("g", ⟨0, 5, 9, some [NCmd.callNamed "g" ⟨0, 1⟩]⟩)]

/-- C1 witness: a concrete completed call restores the table, and a
concrete self-calling function panics instead of reentering. -/
theorem c1_witness :
    (call_reflect 2 nW1 "f" ⟨0, 3⟩ = NOut.ok nW1 ⟨0, 7⟩ ∧
      lookupN nW1 "f" = lookupN nW1 "f") ∧
    (lookupN nW2 "g" = some ⟨0, 5, 9, some [NCmd.callNamed "g" ⟨0, 1⟩]⟩ ∧
      call_reflect 3 nW2 "g" ⟨0, 2⟩ = NOut.panicO) :=
  ⟨⟨rfl, c1_checkout_restores_and_blocks_reentry.1 2 nW1 "f" ⟨0, 3⟩ nW1 ⟨0, 7⟩ rfl⟩,
   ⟨rfl, c1_checkout_restores_and_blocks_reentry.2 0 nW2 "g" ⟨0, 2⟩
      ⟨0, 5, 9, some [NCmd.callNamed "g" ⟨0, 1⟩]⟩ ⟨0, 1⟩ [] rfl rfl rfl⟩⟩

def nW3 : NWorld := [("f", ⟨0, 1, 42, some []⟩)]

/-- C3 counterexample: the claim says a call whose input runtime type id
differs from the registered input type id fails with a TypeMismatch
error that is fatal only to that single call, the process continuing.
In the code there is no type check before the call: the closure built in
register_named_system does `in_ref.downcast().unwrap()`
(named_system_registry.rs:25), so at the concrete registered function
"f" (input type id 0) called with a value of type id 1 the call panics,
aborting the process -- no TypeMismatch error value exists anywhere in
the code. -/
theorem c3_cex_type_mismatch_panics :
    call_reflect 3 nW3 "f" ⟨1, 0⟩ = NOut.panicO ∧ NOut.panicO ≠ NOut.unknownName :=
  ⟨rfl, by decide⟩

/-- C3 amended: calling a registered, checked-in function with an input
whose runtime type id differs from the registered input type id panics
(the downcast unwrap fires, aborting the process) rather than returning
a recoverable TypeMismatch error; calling an unregistered name returns
None (the UnknownFunction case), which is recoverable. -/
theorem c3_mismatch_panics_unknown_is_none :
    (∀ fuel w name arg e prog, lookupN w name = some e → e.slot = some prog →
      arg.ty ≠ e.inTy → call_reflect (fuel + 1) w name arg = NOut.panicO) ∧
    (∀ fuel w name arg, lookupN w name = none →
      call_reflect (fuel + 1) w name arg = NOut.unknownName) := by
  constructor
  · intro fuel w name arg e prog hl hs hty
    simp only [call_reflect, hl, hs, if_neg hty]
  · intro fuel w name arg hl
    simp only [call_reflect, hl]

/-- C3 witness: the amended behaviour at concrete inputs. -/
theorem c3_witness :
    (lookupN nW3 "f" = some ⟨0, 1, 42, some []⟩ ∧
      (NVal.mk 1 0).ty ≠ (NEntry.mk 0 1 42 (some [])).inTy ∧
      call_reflect 1 nW3 "f" ⟨1, 0⟩ = NOut.panicO) ∧
    (lookupN nW3 "h" = none ∧
      call_reflect 1 nW3 "h" ⟨0, 0⟩ = NOut.unknownName) :=
  ⟨⟨rfl, by decide,
    c3_mismatch_panics_unknown_is_none.1 0 nW3 "f" ⟨1, 0⟩ ⟨0, 1, 42, some []⟩ [] rfl rfl
      (by decide)⟩,
   ⟨rfl, c3_mismatch_panics_unknown_is_none.2 0 nW3 "h" ⟨0, 0⟩ rfl⟩⟩

/- ===================================================================
   Part 2: htmx.rs -- the trigger/swap pipeline
   ===================================================================
   XPlugin schedules find_to_run.pipe(run_x_funcs).pipe(swap_system)
   followed by apply_deferred, all before spawn_scene_system
   (htmx.rs:143-145).  Entities are Nat identities; a replacement
   document handle (Handle<HTMLScene>) is an opaque Nat.  The named
   systems invoked by run_x_funcs are modelled by the pure producer
   table funcsP (each registered () -> HTMLScene function yields its
   replacement document); a name missing from the table makes the
   `.unwrap()` of run_x_funcs (htmx.rs:81) panic.  swap_system resolves
   each trigger's target and queues entity commands; the queued command
   and the call are recorded as events so that the order of the pass
   can be stated. -/

inductive XSwapM where
  | outerM
  | innerM
  | frontM
  | backM
deriving DecidableEq, Repr

inductive XTargetM where
  | thisT
  | nextSiblingT
  | previousSiblingT
  | rootT
  | nameT (s : String)
  | childNameT (s : String)
  | entityT (e : Nat)
deriving DecidableEq, Repr

inductive XOnM where
  | createM
  | updateM
  | fixedM (ms : Nat)
  | clickM
  | eventM (s : String)
deriving DecidableEq, Repr

/-- One element of the ToRun list built by find_to_run (htmx.rs:46). -/
structure ToRunE where
  ent : Nat
  fn : String
  onK : XOnM
  swapK : XSwapM
  targetK : XTargetM
deriving DecidableEq, Repr

abbrev Scene := Nat

structure PWorld where
  namesP : List (Nat × String)
  childrenP : List (Nat × List Nat)
  funcsP : List (String × Scene)
deriving DecidableEq, Repr

/-- The entity command queued by swap_system for one trigger
(despawn_descendants / spawn / insert / add_child compressed into the
per-mode command of htmx.rs:102-130). -/
inductive SwapCmd where
  | outerC (e : Nat) (s : Scene)
  | innerC (e : Nat) (s : Scene)
  | frontC (e : Nat) (s : Scene)
  | backC (e : Nat) (s : Scene)
deriving DecidableEq, Repr

inductive PEvent where
  | callEv (fn : String)
  | swapEv (c : SwapCmd)
deriving DecidableEq, Repr

def isSwapEvB (e : PEvent) : Bool :=
  match e with
  | .callEv _ => false
  | .swapEv _ => true

def lookupFn (w : PWorld) (n : String) : Option Scene :=
  match w.funcsP.find? (fun p => p.1 == n) with
  | some p => some p.2
  | none => none

def nameOfP (w : PWorld) (e : Nat) : Option String :=
  match w.namesP.find? (fun p => p.1 == e) with
  | some p => some p.2
  | none => none

/-- name_query.iter().find on Query<(Entity, &Name)> (htmx.rs:97). -/
def findNamed (w : PWorld) (n : String) : Option Nat :=
  match w.namesP.find? (fun p => p.2 == n) with
  | some p => some p.1
  | none => none

def childrenOfP (w : PWorld) (e : Nat) : List Nat :=
  match w.childrenP.find? (fun p => p.1 == e) with
  | some p => p.2
  | none => []

/-- children.iter_descendants (htmx.rs:98), depth-first with fuel. -/
def descendantsP (fuel : Nat) (w : PWorld) (e : Nat) : List Nat :=
  match fuel with
  | 0 => []
  | fuel + 1 => (childrenOfP w e).flatMap (fun c => c :: descendantsP fuel w c)

/-- Target resolution of swap_system (htmx.rs:95-101).  `none` is a
panic: the `.unwrap()` of the Name/ChildName searches, or the
`unimplemented!()` arm for the remaining variants. -/
def resolveTarget (w : PWorld) (self : Nat) (t : XTargetM) : Option Nat :=
  match t with
  | .thisT => some self
  | .nameT n => findNamed w n
  | .childNameT n =>
    (descendantsP (w.childrenP.length + 1) w self).find? (fun d => nameOfP w d == some n)
  | _ => none

def mkSwapCmd (m : XSwapM) (e : Nat) (s : Scene) : SwapCmd :=
  match m with
  | .outerM => .outerC e s
  | .innerM => .innerC e s
  | .frontM => .frontC e s
  | .backM => .backC e s

/-- find_to_run (htmx.rs:48-74): selects the trigger-bearing entities
whose XOn condition fired this pass.  `created` is the Added<Transform>
query, `pressed` the entities whose Interaction changed to Pressed.
Returns none when an unimplemented trigger kind is hit
(the `unimplemented!()` arm). -/
def find_to_run (created : List Nat) (pressed : List Nat)
    (xs : List ToRunE) : Option (List ToRunE) :=
  match xs with
  | [] => some []
  | t :: rest =>
    let fire : Option Bool :=
      match t.onK with
      | .createM => some (created.contains t.ent)
      | .clickM => some (pressed.contains t.ent)
      | .updateM => some true
      | _ => none
    match fire with
    | none => none
    | some b =>
      match find_to_run created pressed rest with
      | none => none
      | some ts => some (if b then t :: ts else ts)

/-- run_x_funcs (htmx.rs:76-85): calls every triggered entity's named
function in order, collecting the produced replacement documents; the
events record each completed call.  A name missing from the registry
panics (`.unwrap()` on None), yielding no item list. -/
def run_x_funcs (tr : List ToRunE) (w : PWorld) :
    List PEvent × Option (List (ToRunE × Scene)) :=
  match tr with
  | [] => ([], some [])
  | t :: rest =>
    match lookupFn w t.fn with
    | none => ([], none)
    | some s =>
      match run_x_funcs rest w with
      | (evs, none) => (PEvent.callEv t.fn :: evs, none)
      | (evs, some items) => (PEvent.callEv t.fn :: evs, some ((t, s) :: items))

/-- swap_system (htmx.rs:87-132): resolves each trigger's target and
queues the per-mode entity commands.  The Bool is the panic flag: an
unresolvable target aborts the whole loop (and with it every remaining
swap of the batch). -/
def swap_system (items : List (ToRunE × Scene)) (w : PWorld) : List PEvent × Bool :=
  match items with
  | [] => ([], false)
  | (t, s) :: rest =>
    match resolveTarget w t.ent t.targetK with
    | none => ([], true)
    | some e =>
      match swap_system rest w with
      | (evs, p) => (PEvent.swapEv (mkSwapCmd t.swapK e s) :: evs, p)

/-- The event trace of one scheduling pass:
find_to_run.pipe(run_x_funcs).pipe(swap_system).  All commands queued
by swap_system are applied at the apply_deferred that follows, so the
position of a swapEv is an upper bound on how early that swap can
affect the graph. -/
def passEvents (tr : List ToRunE) (w : PWorld) : List PEvent :=
  match run_x_funcs tr w with
  | (evs, none) => evs
  | (evs, some items) => evs ++ (swap_system items w).1

def allRegistered (w : PWorld) (tr : List ToRunE) : Bool :=
  tr.all (fun t => (lookupFn w t.fn).isSome)

lemma run_x_funcs_all_registered (w : PWorld) :
    ∀ tr : List ToRunE, allRegistered w tr = true →
      ∃ items, run_x_funcs tr w = (tr.map (fun t => PEvent.callEv t.fn), some items) := by
  intro tr
  induction tr with
  | nil => intro _; exact ⟨[], rfl⟩
  | cons t rest ih =>
    intro h
    simp only [allRegistered, List.all_cons, Bool.and_eq_true] at h
    obtain ⟨ht, hrest⟩ := h
    obtain ⟨items, hitems⟩ := ih hrest
    cases hf : lookupFn w t.fn with
    | none => rw [hf] at ht; simp at ht
    | some s =>
      refine ⟨(t, s) :: items, ?_⟩
      simp only [run_x_funcs, hf, hitems, List.map_cons]

lemma swap_system_only_swaps (w : PWorld) :
    ∀ items : List (ToRunE × Scene), ((swap_system items w).1).all isSwapEvB = true := by
  intro items
  induction items with
  | nil => rfl
  | cons it rest ih =>
    obtain ⟨t, s⟩ := it
    cases hr : resolveTarget w t.ent t.targetK with
    | none => simp [swap_system, hr]
    | some e =>
      simp only [swap_system, hr]
      cases hs : swap_system rest w with
      | mk evs p =>
        rw [hs] at ih
        simp only [List.all_cons, Bool.and_eq_true]
        exact ⟨rfl, ih⟩

/-- C2: within one scheduling pass, every triggered node's bound
function is invoked -- the first N events of the pass trace are exactly
the N calls, in trigger order -- before any of the batch's swaps is
queued (and commands only apply later still, at apply_deferred): every
event after the calls is a swap command event.  Hence no function call
can observe another trigger's replacement subtree from the same pass;
every call observes the graph as it existed before the pass began,
swaps being applied only after the whole call batch. -/
theorem c2_calls_precede_swaps (tr : List ToRunE) (w : PWorld)
    (hreg : allRegistered w tr = true) :
    (passEvents tr w).take tr.length = tr.map (fun t => PEvent.callEv t.fn) ∧
    ((passEvents tr w).drop tr.length).all isSwapEvB = true := by
  obtain ⟨items, hrun⟩ := run_x_funcs_all_registered w tr hreg
  have hpe : passEvents tr w
      = tr.map (fun t => PEvent.callEv t.fn) ++ (swap_system items w).1 := by
    simp only [passEvents, hrun]
  constructor
  · rw [hpe]
    have hlen : tr.length = (tr.map (fun t => PEvent.callEv t.fn)).length := by
      simp
    rw [hlen, List.take_left]
  · rw [hpe]
    have hlen : tr.length = (tr.map (fun t => PEvent.callEv t.fn)).length := by
      simp
    rw [hlen, List.drop_left]
    exact swap_system_only_swaps w items

def pTr2 : List ToRunE :=
  [⟨1, "inc", .clickM, .outerM, .nameT "number"⟩,
   ⟨2, "dec", .clickM, .innerM, .thisT⟩]
def pW2 : PWorld := ⟨[(5, "number")], [], [("inc", 10), ("dec", 11)]⟩

/-- C2 witness: a concrete two-trigger batch. -/
theorem c2_witness :
    allRegistered pW2 pTr2 = true ∧
    ((passEvents pTr2 pW2).take pTr2.length
        = pTr2.map (fun t => PEvent.callEv t.fn) ∧
      ((passEvents pTr2 pW2).drop pTr2.length).all isSwapEvB = true) :=
  ⟨by decide, c2_calls_precede_swaps pTr2 pW2 (by decide)⟩

def pItemsC7 : List (ToRunE × Scene) :=
  [(⟨1, "inc", .clickM, .outerM, .nameT "missing"⟩, 10),
   (⟨2, "dec", .clickM, .outerM, .thisT⟩, 11)]
def pWC7 : PWorld := ⟨[(1, "a"), (2, "b")], [], [("inc", 10), ("dec", 11)]⟩

/-- C7: the claim says an unresolvable swap target (a by-name lookup
finding no node) makes the engine skip only that trigger's swap while
the other triggers' swaps in the batch are still applied.  In the code,
`XTarget::Name` resolution ends in `.unwrap()` (htmx.rs:97): at the
concrete batch whose first trigger targets the unused name "missing"
and whose second trigger targets itself, swap_system panics (flag true)
and queues no swap at all -- the second, independent trigger's swap is
lost and the process aborts. -/
theorem c7_unresolved_target_aborts_batch :
    swap_system pItemsC7 pWC7 = ([], true) ∧
    resolveTarget pWC7 2 XTargetM.thisT = some 2 := by
  constructor
  · rfl
  · rfl

/- ===================================================================
   Part 3: typed_partial_reflect_deserializer.rs and
           construct_instance (lib.rs:149-187)
   ===================================================================
   Attribute values are modelled already tokenized (the html-entity
   decoding, RON lexing, and the paren-wrapping of struct text are
   surface syntax): a Raw is either a primitive token or a map of
   field name to Raw.  An instance is a Val: a leaf value or a struct
   of named field values (a DynamicStruct).  A type registration is a
   Desc: its shape (struct with named, typed fields, or opaque leaf),
   the optional ReflectDefault factory, the optional ReflectConstruct
   constructor, and the optional ReflectDeserialize leaf parser. -/

mutual
inductive Raw where
  | prim (s : String)
  | rmap (fields : RawFields)
inductive RawFields where
  | nilR
  | consR (k : String) (r : Raw) (rest : RawFields)
end

mutual
inductive Val where
  | vstr (s : String)
  | vmap (fields : ValFields)
inductive ValFields where
  | nilV
  | consV (k : String) (v : Val) (rest : ValFields)
end

def isLeafVal (v : Val) : Bool :=
  match v with
  | .vstr _ => true
  | .vmap _ => false

def lookupVF (fs : ValFields) (k : String) : Option Val :=
  match fs with
  | .nilV => none
  | .consV k2 v rest => if k2 = k then some v else lookupVF rest k

/-- DynamicStruct::insert_boxed: replaces the field if present, else
appends it. -/
def insertVF (fs : ValFields) (k : String) (v : Val) : ValFields :=
  match fs with
  | .nilV => .consV k v .nilV
  | .consV k2 v2 rest =>
    if k2 = k then .consV k v rest else .consV k2 v2 (insertVF rest k v)

def leavesOnly (fs : ValFields) : Bool :=
  match fs with
  | .nilV => true
  | .consV _ v rest => isLeafVal v && leavesOnly rest

mutual
/-- Reflect::apply of a parsed (possibly partial) patch onto a base
instance: for structs, every field present in the patch is applied
recursively onto the base's field and all other base fields are kept;
for anything else the patch value replaces the base. -/
def applyVal (base patch : Val) : Val :=
  match base, patch with
  | Val.vmap bf, Val.vmap pf => Val.vmap (applyFields bf pf)
  | _, _ => patch
def applyFields (bf pf : ValFields) : ValFields :=
  match bf with
  | .nilV => .nilV
  | .consV k v rest =>
    match lookupVF pf k with
    | some p => .consV k (applyVal v p) (applyFields rest pf)
    | none => .consV k v (applyFields rest pf)
end

inductive Shape where
  | structSh (fields : List (String × String))
  | leafSh

/-- An input document element (html_parser::Element): tag name,
attributes in document order with optional raw values, optional id,
child elements.  Text nodes are not modelled (no claim concerns the
Text facet). -/
inductive Element where
  | elem (tag : String) (attrs : List (String × Option Raw)) (idAttr : Option String)
      (children : List Element)

/-- One TypeRegistration plus its type data, as looked up through the
AppTypeRegistry. -/
structure Desc where
  dname : String
  shape : Shape
  defaultV : Option Val
  constructF : Option (Raw → Option Val)
  deserF : Option (Raw → Option Val)
  intoScene : Option Element

def Element.tagOf (el : Element) : String :=
  match el with
  | .elem t _ _ _ => t

def Element.attrsOf (el : Element) : List (String × Option Raw) :=
  match el with
  | .elem _ a _ _ => a

def Element.idOf (el : Element) : Option String :=
  match el with
  | .elem _ _ i _ => i

def Element.childrenOf (el : Element) : List Element :=
  match el with
  | .elem _ _ _ c => c

abbrev Reg := List Desc

/-- TypeRegistry::get by name. -/
def findDesc (reg : Reg) (n : String) : Option Desc :=
  reg.find? (fun d => d.dname == n)

def lookupSS (fields : List (String × String)) (k : String) : Option String :=
  match fields with
  | [] => none
  | (k2, v) :: rest => if k2 = k then some v else lookupSS rest k

def unknownFieldErr (k : String) : String := "unknown field " ++ k

def fieldNotRegErr : String := "Field not in type registry"

def valueNoDeserErr : String := "Found value type with no deserializer/constructor"

/-- Outcome of TypedPartialReflectDeserializer::deserialize.  `errD` is
the one Err the function itself returns (a Value type with neither
deserializer nor successful constructor); every visitor error is turned
into a panic by the `.unwrap()` calls of lines 163/179/197/204. -/
inductive DOut where
  | okD (v : Val)
  | errD
  | panicD
  | stuckD

/-- Outcome of StructVisitor::visit_map itself (before the unwrap). -/
inductive VOut where
  | okV (fs : ValFields)
  | errV (msg : String)
  | panicV
  | stuckV

mutual
/-- TypedPartialReflectDeserializer::deserialize
(typed_partial_reflect_deserializer.rs:131-212): tries the registered
ReflectConstruct constructor first and falls through to shape-directed
deserialization when it is absent or fails. -/
def deserTyped (fuel : Nat) (reg : Reg) (d : Desc) (raw : Raw) : DOut :=
  match fuel with
  | 0 => .stuckD
  | fuel + 1 =>
    match d.constructF with
    | some ctor =>
      match ctor raw with
      | some v => .okD v
      | none => deserShape fuel reg d raw
    | none => deserShape fuel reg d raw

/-- The shape dispatch of deserialize: Struct goes through
deserialize_struct with a StructVisitor (its Err is unwrapped, so a
visitor error is a panic); Value uses the registered ReflectDeserialize
(whose Err is unwrapped) or returns the
no-deserializer/constructor Err. -/
def deserShape (fuel : Nat) (reg : Reg) (d : Desc) (raw : Raw) : DOut :=
  match fuel with
  | 0 => .stuckD
  | fuel + 1 =>
    match d.shape with
    | Shape.structSh fields =>
      match raw with
      | Raw.rmap pairs =>
        match visit_map fuel reg fields pairs ValFields.nilV with
        | .okV fs => .okD (Val.vmap fs)
        | .errV _ => .panicD
        | .panicV => .panicD
        | .stuckV => .stuckD
      | Raw.prim _ => .panicD
    | Shape.leafSh =>
      match d.deserF with
      | some p =>
        match p raw with
        | some v => .okD v
        | none => .panicD
      | none => .errD

/-- StructVisitor::visit_map
(typed_partial_reflect_deserializer.rs:324-349): every input key must
name a declared field (else the "unknown field" error), the field's
type must be registered, and the field value is deserialized with this
same deserializer; results accumulate into a DynamicStruct. -/
def visit_map (fuel : Nat) (reg : Reg) (fields : List (String × String))
    (pairs : RawFields) (acc : ValFields) : VOut :=
  match fuel with
  | 0 => .stuckV
  | fuel + 1 =>
    match pairs with
    | .nilR => .okV acc
    | .consR k r rest =>
      match lookupSS fields k with
      | none => .errV (unknownFieldErr k)
      | some fty =>
        match findDesc reg fty with
        | none => .errV fieldNotRegErr
        | some fd =>
          match deserTyped fuel reg fd r with
          | .okD v => visit_map fuel reg fields rest (insertVF acc k v)
          | .errD => .errV valueNoDeserErr
          | .panicD => .panicV
          | .stuckD => .stuckV
end

/-- Outcome of construct_instance (lib.rs:149-187).  The function's
Result is Ok in every reachable non-panicking path; `panicC` covers the
`.unwrap()` on the deserializer result and the `panic!()` of the
(None, None) arm. -/
inductive CIOut where
  | okC (v : Val)
  | panicC
  | stuckC

/-- construct_instance (lib.rs:149-187): with a present value,
deserialize it (unwrap-panicking on failure) and, if a ReflectDefault
factory exists, start from the default and apply the parsed partial
instance onto it; with an absent value, use the default factory if
present, else `panic!()`. -/
def construct_instance (fuel : Nat) (reg : Reg) (d : Desc) (value : Option Raw) : CIOut :=
  match value with
  | some raw =>
    match deserTyped fuel reg d raw with
    | .okD inst =>
      match d.defaultV with
      | some dv => .okC (applyVal dv inst)
      | none => .okC inst
    | .stuckD => .stuckC
    | _ => .panicC
  | none =>
    match d.defaultV with
    | some dv => .okC dv
    | none => .panicC

lemma lookupVF_applyFields (bf pf : ValFields) (k : String) :
    lookupVF (applyFields bf pf) k
      = match lookupVF bf k with
        | none => none
        | some bv =>
          match lookupVF pf k with
          | some pv => some (applyVal bv pv)
          | none => some bv := by
  match bf with
  | ValFields.nilV => rfl
  | ValFields.consV k2 v rest =>
    have ih := lookupVF_applyFields rest pf k
    by_cases hk : k2 = k
    · subst hk
      cases hp : lookupVF pf k2 with
      | none => simp [applyFields, lookupVF, hp]
      | some p => simp [applyFields, lookupVF, hp]
    · cases hp : lookupVF pf k2 with
      | none => simp [applyFields, lookupVF, hp, hk, ih]
      | some p => simp [applyFields, lookupVF, hp, hk, ih]

lemma applyVal_leaf (b p : Val) (h : isLeafVal p = true) : applyVal b p = p := by
  cases p with
  | vstr s => cases b <;> rfl
  | vmap fs => simp [isLeafVal] at h

lemma leavesOnly_lookup (k : String) (fs : ValFields) (h : leavesOnly fs = true) :
    ∀ v, lookupVF fs k = some v → isLeafVal v = true := by
  match fs with
  | ValFields.nilV => intro v hv; simp [lookupVF] at hv
  | ValFields.consV k2 v2 rest =>
    intro v hv
    simp only [leavesOnly, Bool.and_eq_true] at h
    by_cases hk : k2 = k
    · simp only [lookupVF, if_pos hk] at hv
      cases hv
      exact h.1
    · simp only [lookupVF, if_neg hk] at hv
      exact leavesOnly_lookup k rest h.2 v hv

/-- C6: for a struct-shaped type with a registered default factory,
constructing from a textual value that lists only a subset of the
fields (the parse of which produced the partial instance `parsed`,
with leaf field values) yields the default-factory instance patched
field by field: every listed field holds exactly its parsed value and
every unlisted field holds the default factory's value for that
field. -/
theorem c6_partial_patch_merges_defaults (fuel : Nat) (reg : Reg) (d : Desc)
    (dfs parsed : ValFields) (pairs : RawFields)
    (hde : d.defaultV = some (Val.vmap dfs))
    (hp : deserTyped fuel reg d (Raw.rmap pairs) = DOut.okD (Val.vmap parsed))
    (hleaf : leavesOnly parsed = true) :
    construct_instance fuel reg d (some (Raw.rmap pairs))
        = CIOut.okC (Val.vmap (applyFields dfs parsed)) ∧
    (∀ k pv bv, lookupVF parsed k = some pv → lookupVF dfs k = some bv →
      lookupVF (applyFields dfs parsed) k = some pv) ∧
    (∀ k bv, lookupVF parsed k = none → lookupVF dfs k = some bv →
      lookupVF (applyFields dfs parsed) k = some bv) := by
  refine ⟨?_, ?_, ?_⟩
  · simp only [construct_instance, hp, hde, applyVal]
  · intro k pv bv hpv hbv
    simp only [lookupVF_applyFields, hbv, hpv,
      applyVal_leaf bv pv (leavesOnly_lookup k parsed hleaf pv hpv)]
  · intro k bv hpv hbv
    simp only [lookupVF_applyFields, hbv, hpv]

def leafIntDesc : Desc :=
  ⟨"IntLeaf", Shape.leafSh, none, none,
    some (fun r => match r with | .prim s => some (.vstr s) | _ => none), none⟩

def counterDesc : Desc :=
  ⟨"Counter", Shape.structSh [("count", "IntLeaf"), ("extra", "IntLeaf")],
    some (Val.vmap (.consV "count" (.vstr "0") (.consV "extra" (.vstr "5") .nilV))),
    none, none, none⟩

def regC6 : Reg := [counterDesc, leafIntDesc]

def pairsC6 : RawFields := .consR "count" (.prim "3") .nilR

def dfsC6 : ValFields := .consV "count" (.vstr "0") (.consV "extra" (.vstr "5") .nilV)

def parsedC6 : ValFields := .consV "count" (.vstr "3") .nilV

/-- C6 witness: `Counter count="3"` with default `(count: 0, extra: 5)`
constructs `(count: 3, extra: 5)`. -/
theorem c6_witness :
    counterDesc.defaultV = some (Val.vmap dfsC6) ∧
    deserTyped 6 regC6 counterDesc (Raw.rmap pairsC6) = DOut.okD (Val.vmap parsedC6) ∧
    leavesOnly parsedC6 = true ∧
    construct_instance 6 regC6 counterDesc (some (Raw.rmap pairsC6))
        = CIOut.okC (Val.vmap (applyFields dfsC6 parsedC6)) ∧
    lookupVF (applyFields dfsC6 parsedC6) "count" = some (Val.vstr "3") ∧
    lookupVF (applyFields dfsC6 parsedC6) "extra" = some (Val.vstr "5") :=
  ⟨rfl, rfl, rfl,
   (c6_partial_patch_merges_defaults 6 regC6 counterDesc dfsC6 parsedC6 pairsC6
      rfl rfl rfl).1,
   (c6_partial_patch_merges_defaults 6 regC6 counterDesc dfsC6 parsedC6 pairsC6
      rfl rfl rfl).2.1 "count" (Val.vstr "3") (Val.vstr "0") rfl rfl,
   (c6_partial_patch_merges_defaults 6 regC6 counterDesc dfsC6 parsedC6 pairsC6
      rfl rfl rfl).2.2 "extra" (Val.vstr "5") rfl rfl⟩

def noDefaultDesc : Desc := ⟨"NoDef", Shape.leafSh, none, none, none, none⟩

def withDefaultDesc : Desc :=
  ⟨"WithDef", Shape.leafSh, some (Val.vstr "d"), none, none, none⟩

/-- C8: the claim says an absent raw value on a descriptor with no
default factory fails with a MissingDefault error returned to the
caller.  The code's own error enum has the matching variant
(HTMLSceneSpawnError::NoDefault, lib.rs:139-140), but construct_instance
never constructs it: the (None, None) arm is `panic!()` (lib.rs:183),
aborting the process instead of returning an error.  The second half of
the claim holds: with a default factory, the absent-value case returns
exactly the default factory's instance. -/
theorem c8_missing_default_panics :
    construct_instance 3 [] noDefaultDesc none = CIOut.panicC ∧
    construct_instance 3 [] withDefaultDesc none = CIOut.okC (Val.vstr "d") :=
  ⟨rfl, rfl⟩

/-- Prop-level membership in a RawFields map. -/
def memRF (k : String) (r : Raw) (pairs : RawFields) : Prop :=
  match pairs with
  | .nilR => False
  | .consR k2 r2 rest => (k2 = k ∧ r2 = r) ∨ memRF k r rest

/-- C9: when deserializing a struct-shaped value, an input key that
does not name a declared field is never silently ignored: visit_map
only succeeds when every input key names a declared field, and a
reached unknown key produces exactly the unknown-field error
(typed_partial_reflect_deserializer.rs:331-337). -/
theorem c9_unknown_struct_field_rejected :
    (∀ fuel reg fields pairs acc out,
      visit_map fuel reg fields pairs acc = VOut.okV out →
      ∀ k r, memRF k r pairs → lookupSS fields k ≠ none) ∧
    (∀ fuel reg fields k r rest acc, lookupSS fields k = none →
      visit_map (fuel + 1) reg fields (RawFields.consR k r rest) acc
        = VOut.errV (unknownFieldErr k)) := by
  constructor
  · intro fuel
    induction fuel with
    | zero =>
      intro reg fields pairs acc out h
      simp [visit_map] at h
    | succ fuel ih =>
      intro reg fields pairs acc out h k r hmem
      rw [visit_map.eq_def] at h
      simp only at h
      split at h
      · exact absurd hmem (by simp [memRF])
      · rename_i k2 r2 rest
        split at h
        · simp at h
        · rename_i fty hfty
          split at h
          · simp at h
          · rename_i fd hfd
            split at h
            · rename_i v hv
              rcases hmem with ⟨hk, -⟩ | hmem
              · subst hk
                rw [hfty]
                simp
              · exact ih reg fields rest _ out h k r hmem
            · simp at h
            · simp at h
            · simp at h
  · intro fuel reg fields k r rest acc h
    rw [visit_map.eq_def]
    simp only [h]

/-- C9 witness: a successful parse has only declared keys, and a
concrete unknown key yields the unknown-field error. -/
theorem c9_witness :
    (visit_map 3 regC6 [("count", "IntLeaf")] (RawFields.consR "count" (Raw.prim "3") .nilR)
        ValFields.nilV = VOut.okV (ValFields.consV "count" (Val.vstr "3") .nilV) ∧
      lookupSS [("count", "IntLeaf")] "count" ≠ none) ∧
    (lookupSS [("count", "IntLeaf")] "bogus" = none ∧
      visit_map 3 regC6 [("count", "IntLeaf")]
          (RawFields.consR "bogus" (Raw.prim "1") .nilR) ValFields.nilV
        = VOut.errV (unknownFieldErr "bogus")) :=
  ⟨⟨rfl, c9_unknown_struct_field_rejected.1 3 regC6 [("count", "IntLeaf")]
      (RawFields.consR "count" (Raw.prim "3") .nilR) ValFields.nilV
      (ValFields.consV "count" (Val.vstr "3") .nilV) rfl "count" (Raw.prim "3")
      (Or.inl ⟨rfl, rfl⟩)⟩,
   ⟨rfl, c9_unknown_struct_field_rejected.2 2 regC6 [("count", "IntLeaf")] "bogus"
      (Raw.prim "1") RawFields.nilR ValFields.nilV rfl⟩⟩

/- ===================================================================
   Part 4: spawn_scene / spawn_scene_system (lib.rs:193-337) and the
   outer swap (htmx.rs:103-107 followed by the same-tick assembly)
   ===================================================================
   The object store: entities are Nat identities; each holds a facet
   map (component type name -> instance), an ordered children list, an
   optional Name, and possibly the HTMLSceneInstance marker.  traceA
   records each construct_instance invocation made by the assembler
   (the attribute name), so that construction side effects can be
   counted. -/

structure AWorld where
  nextId : Nat
  facets : List (Nat × ValFields)
  childrenA : List (Nat × List Nat)
  namesA : List (Nat × String)
  instanced : List Nat
  traceA : List String

/-- Outcome of assembly.  A panic carries the world at the moment the
unwrap/expect/panic fired, so that what had already been materialized
can be inspected; `stuckA` is fuel exhaustion. -/
inductive AOut where
  | okA (w : AWorld)
  | panicA (w : AWorld)
  | stuckA (w : AWorld)

def worldOfA (r : AOut) : AWorld :=
  match r with
  | .okA w => w
  | .panicA w => w
  | .stuckA w => w

def isOkA (r : AOut) : Bool :=
  match r with
  | .okA _ => true
  | _ => false

def isPanicA (r : AOut) : Bool :=
  match r with
  | .panicA _ => true
  | _ => false

def facetsOfE (l : List (Nat × ValFields)) (e : Nat) : ValFields :=
  match l with
  | [] => .nilV
  | (e2, fs) :: rest => if e2 = e then fs else facetsOfE rest e

def lookupFacet (w : AWorld) (e : Nat) (k : String) : Option Val :=
  lookupVF (facetsOfE w.facets e) k

def insertFM (l : List (Nat × ValFields)) (e : Nat) (k : String) (v : Val) :
    List (Nat × ValFields) :=
  match l with
  | [] => [(e, insertVF .nilV k v)]
  | (e2, fs) :: rest =>
    if e2 = e then (e2, insertVF fs k v) :: rest else (e2, fs) :: insertFM rest e k v

/-- ReflectComponent::insert: attaches the instance to the entity,
keyed by its type, overwriting any prior facet of that type
(lib.rs:275-280). -/
def insertFacet (w : AWorld) (e : Nat) (k : String) (v : Val) : AWorld :=
  { w with facets := insertFM w.facets e k v }

/-- commands.insert(Name::from(id)) (lib.rs:282-284). -/
def insertNameA (w : AWorld) (e : Nat) (n : String) : AWorld :=
  { w with namesA := (e, n) :: w.namesA }

def addTrace (w : AWorld) (n : String) : AWorld :=
  { w with traceA := w.traceA ++ [n] }

def markInstanced (w : AWorld) (e : Nat) : AWorld :=
  { w with instanced := e :: w.instanced }

def childrenOfA (w : AWorld) (e : Nat) : List Nat :=
  match w.childrenA.find? (fun p => p.1 == e) with
  | some p => p.2
  | none => []

def appendCM (l : List (Nat × List Nat)) (e : Nat) (cs : List Nat) :
    List (Nat × List Nat) :=
  match l with
  | [] => [(e, cs)]
  | (e2, l2) :: rest =>
    if e2 = e then (e2, l2 ++ cs) :: rest else (e2, l2) :: appendCM rest e cs

/-- commands.push_children (lib.rs:304): appends to the existing
ordered children list. -/
def appendChildrenA (w : AWorld) (e : Nat) (cs : List Nat) : AWorld :=
  { w with childrenA := appendCM w.childrenA e cs }

/-- The attribute-processing sequence of spawn_scene's helper
(lib.rs:213-217): a synthetic first entry (tag, None), then the
declared attributes in order; an attribute literally named "x"
overrides the synthetic entry's value. -/
def componentsOf (el : Element) : List (String × Option Raw) :=
  match ((el.tagOf, none) :: el.attrsOf).find? (fun c => c.1 == "x") with
  | some c => (el.tagOf, c.2) :: el.attrsOf
  | none => (el.tagOf, none) :: el.attrsOf

/-- The reserved attribute names of the helper loop (lib.rs:223-243):
"Entity" and "x" are skipped outright, and "TextStyle" with a value is
consumed by the interim text-style accumulator instead of the generic
path. -/
def isReserved (c : String × Option Raw) : Bool :=
  c.1 == "Entity" || c.1 == "x" || (c.1 == "TextStyle" && c.2.isSome)

def splitAtColon (cs : List Char) : Option (List Char × List Char) :=
  match cs with
  | [] => none
  | c :: rest =>
    if c = ':' then some ([], rest)
    else
      match splitAtColon rest with
      | some (a, b) => some (c :: a, b)
      | none => none

/-- The generic-suffix rewrite of lib.rs:245-250: `Name:Param` becomes
`Name<Param>` before registry lookup. -/
def resolveGenericName (s : String) : String :=
  match splitAtColon s.data with
  | some (a, b) => String.mk (a ++ ('<' :: (b ++ ['>'])))
  | none => s

/-- True when the (resolved) attribute's registration carries no
ReflectIntoHTMLScene template data. -/
def templateFree (reg : Reg) (c : String × Option Raw) : Bool :=
  match findDesc reg (resolveGenericName c.1) with
  | some d => d.intoScene.isNone
  | none => true

mutual
/-- spawn_scene's helper (lib.rs:196-306) restricted to one element:
process the attribute sequence against the target entity, register the
element id as a Name, then assemble the children (text nodes are not
modelled). -/
def helper (fuel : Nat) (reg : Reg) (el : Element) (e : Nat) (w : AWorld) : AOut :=
  match fuel with
  | 0 => .stuckA w
  | fuel + 1 =>
    match processComps fuel reg el.tagOf (componentsOf el) e w with
    | .okA w1 =>
      match el.idOf with
      | some i => processChildren fuel reg el.childrenOf e (insertNameA w1 e i) []
      | none => processChildren fuel reg el.childrenOf e w1 []
    | r => r

/-- The attribute loop of the helper (lib.rs:219-281).  For each
non-reserved (attribute, value) pair: resolve the generic suffix, look
the name up in the type registry (the expect of lib.rs:252-254 panics
on a miss), construct an instance (lib.rs:256-258), if the attribute is
the element's own tag and its type has ReflectIntoHTMLScene data expand
the template against the same target entity (lib.rs:260-268), construct
the instance a second time (lib.rs:270-272), and insert it as a facet
keyed by its type (lib.rs:274-280). -/
def processComps (fuel : Nat) (reg : Reg) (tag : String)
    (comps : List (String × Option Raw)) (e : Nat) (w : AWorld) : AOut :=
  match fuel with
  | 0 => .stuckA w
  | fuel + 1 =>
    match comps with
    | [] => .okA w
    | c :: rest =>
      if isReserved c then processComps fuel reg tag rest e w
      else
        match findDesc reg (resolveGenericName c.1) with
        | none => .panicA w
        | some d =>
          match construct_instance fuel reg d c.2 with
          | .okC _ =>
            match (if resolveGenericName c.1 == tag then d.intoScene else none) with
            | some templ =>
              match helper fuel reg templ e (addTrace w (resolveGenericName c.1)) with
              | .okA w2 =>
                match construct_instance fuel reg d c.2 with
                | .okC inst2 =>
                  processComps fuel reg tag rest e
                    (insertFacet (addTrace w2 (resolveGenericName c.1)) e d.dname inst2)
                | .panicC => .panicA (addTrace w2 (resolveGenericName c.1))
                | .stuckC => .stuckA (addTrace w2 (resolveGenericName c.1))
              | r => r
            | none =>
              match construct_instance fuel reg d c.2 with
              | .okC inst2 =>
                processComps fuel reg tag rest e
                  (insertFacet (addTrace (addTrace w (resolveGenericName c.1))
                    (resolveGenericName c.1)) e d.dname inst2)
              | .panicC => .panicA (addTrace (addTrace w (resolveGenericName c.1))
                  (resolveGenericName c.1))
              | .stuckC => .stuckA (addTrace (addTrace w (resolveGenericName c.1))
                  (resolveGenericName c.1))
          | .panicC => .panicA (addTrace w (resolveGenericName c.1))
          | .stuckC => .stuckA (addTrace w (resolveGenericName c.1))

/-- The child loop of the helper (lib.rs:293-304): spawn a fresh
identity per child element, assemble into it, and finally push the
collected ids onto the parent's children list.  A failure part-way
leaves the earlier children in the store and never reaches
push_children. -/
def processChildren (fuel : Nat) (reg : Reg) (cs : List Element) (parentE : Nat)
    (w : AWorld) (acc : List Nat) : AOut :=
  match fuel with
  | 0 => .stuckA w
  | fuel + 1 =>
    match cs with
    | [] => .okA (appendChildrenA w parentE acc.reverse)
    | c :: rest =>
      match helper fuel reg c w.nextId { w with nextId := w.nextId + 1 } with
      | .okA w2 => processChildren fuel reg rest parentE w2 (w.nextId :: acc)
      | r => r
end

/-- spawn_scene (lib.rs:193-313): assemble the document's root element
into the given entity. -/
def spawn_scene (fuel : Nat) (reg : Reg) (doc : Element) (replace : Nat)
    (w : AWorld) : AOut :=
  helper fuel reg doc replace w

/-- spawn_scene_system (lib.rs:318-337) for one entity holding a scene
handle: entities already marked HTMLSceneInstance are filtered out by
the Without<HTMLSceneInstance> query and never reassembled; otherwise
the marker is inserted and the scene is spawned (its failure is an
expect, i.e. a panic). -/
def spawn_scene_system (fuel : Nat) (reg : Reg) (target : Nat) (doc : Element)
    (w : AWorld) : AOut :=
  if w.instanced.contains target then .okA w
  else spawn_scene fuel reg doc target (markInstanced w target)

def descendantsA (fuel : Nat) (w : AWorld) (e : Nat) : List Nat :=
  match fuel with
  | 0 => []
  | fuel + 1 => (childrenOfA w e).flatMap (fun c => c :: descendantsA fuel w c)

/-- Despawning one entity removes it from every store map. -/
def removeEntityA (w : AWorld) (x : Nat) : AWorld :=
  { w with
    facets := w.facets.filter (fun p => p.1 != x),
    childrenA := w.childrenA.filter (fun p => p.1 != x),
    namesA := w.namesA.filter (fun p => p.1 != x),
    instanced := w.instanced.filter (fun y => y != x) }

def clearChildrenA (w : AWorld) (e : Nat) : AWorld :=
  { w with childrenA := w.childrenA.filter (fun p => p.1 != e) }

/-- commands.entity(target).despawn_descendants(): every descendant is
despawned and the target's children list is emptied; the target's own
components are untouched. -/
def despawnDescendants (fuel : Nat) (w : AWorld) (e : Nat) : AWorld :=
  clearChildrenA ((descendantsA fuel w e).foldl removeEntityA w) e

/-- An XSwap::Outer swap on a resolved target (htmx.rs:103-107)
followed by the same-tick spawn_scene_system pass: despawn the
target's descendants, insert the replacement scene handle, and let
spawn_scene_system assemble it (if the target is not already marked
HTMLSceneInstance). -/
def outerSwap (fuel : Nat) (reg : Reg) (target : Nat) (repl : Element)
    (w : AWorld) : AOut :=
  spawn_scene_system fuel reg target repl (despawnDescendants fuel w target)

lemma lookupVF_insertVF_isSome (fs : ValFields) (k k2 : String) (v : Val)
    (h : (lookupVF fs k).isSome = true) : (lookupVF (insertVF fs k2 v) k).isSome = true := by
  match fs with
  | ValFields.nilV => simp [lookupVF] at h
  | ValFields.consV k3 v3 rest =>
    by_cases h32 : k3 = k2
    · by_cases h2k : k2 = k
      · simp [insertVF, lookupVF, h32, h2k]
      · have h3k : ¬ (k3 = k) := by rw [h32]; exact h2k
        simp only [lookupVF, if_neg h3k] at h
        simp [insertVF, lookupVF, h32, h2k, h]
    · by_cases h3k : k3 = k
      · subst h3k
        simp [insertVF, lookupVF, h32]
      · simp only [lookupVF, if_neg h3k] at h
        simp only [insertVF, if_neg h32, lookupVF, if_neg h3k]
        exact lookupVF_insertVF_isSome rest k k2 v h

lemma facetsOfE_insertFM_self (l : List (Nat × ValFields)) (e : Nat) (k : String)
    (v : Val) : facetsOfE (insertFM l e k v) e = insertVF (facetsOfE l e) k v := by
  induction l with
  | nil => simp [insertFM, facetsOfE]
  | cons p rest ih =>
    obtain ⟨e2, fs⟩ := p
    by_cases h2 : e2 = e
    · simp [insertFM, facetsOfE, h2]
    · simp [insertFM, facetsOfE, h2, ih]

lemma facetsOfE_insertFM_other (l : List (Nat × ValFields)) (e2 e : Nat) (k : String)
    (v : Val) (h : e2 ≠ e) : facetsOfE (insertFM l e2 k v) e = facetsOfE l e := by
  induction l with
  | nil => simp [insertFM, facetsOfE, h]
  | cons p rest ih =>
    obtain ⟨e3, fs⟩ := p
    by_cases h3 : e3 = e2
    · subst h3
      simp [insertFM, facetsOfE, h]
    · by_cases h3e : e3 = e
      · subst h3e
        have he2 : ¬ (e3 = e2) := h3
        simp [insertFM, facetsOfE, he2]
      · simp [insertFM, facetsOfE, h3, h3e, ih]

lemma lookupFacet_insertFacet_mono (w : AWorld) (e2 : Nat) (k2 : String) (v : Val)
    (e : Nat) (k : String) (h : (lookupFacet w e k).isSome = true) :
    (lookupFacet (insertFacet w e2 k2 v) e k).isSome = true := by
  by_cases he : e2 = e
  · subst he
    unfold lookupFacet insertFacet
    rw [facetsOfE_insertFM_self]
    exact lookupVF_insertVF_isSome _ k k2 v h
  · unfold lookupFacet insertFacet
    rw [facetsOfE_insertFM_other _ _ _ _ _ he]
    exact h

/-- Assembly only creates facets or overwrites same-typed facets; it
never removes a facet key, whatever the outcome (success or panic).
Proved jointly for the helper, its attribute loop and its child loop by
fuel induction. -/
lemma assembly_keeps_facets : ∀ fuel : Nat,
    (∀ reg el e w e' k, (lookupFacet w e' k).isSome = true →
      (lookupFacet (worldOfA (helper fuel reg el e w)) e' k).isSome = true) ∧
    (∀ reg tag comps e w e' k, (lookupFacet w e' k).isSome = true →
      (lookupFacet (worldOfA (processComps fuel reg tag comps e w)) e' k).isSome = true) ∧
    (∀ reg cs pe w acc e' k, (lookupFacet w e' k).isSome = true →
      (lookupFacet (worldOfA (processChildren fuel reg cs pe w acc)) e' k).isSome = true) := by
  intro fuel
  induction fuel with
  | zero =>
    refine ⟨?_, ?_, ?_⟩
    · intro reg el e w e' k h
      exact h
    · intro reg tag comps e w e' k h
      exact h
    · intro reg cs pe w acc e' k h
      exact h
  | succ fuel ih =>
    obtain ⟨ihH, ihC, ihK⟩ := ih
    refine ⟨?_, ?_, ?_⟩
    · intro reg el e w e' k h
      rw [helper.eq_def]
      simp only
      split
      · rename_i w1 hpc
        have h1 := ihC reg el.tagOf (componentsOf el) e w e' k h
        rw [hpc] at h1
        split
        · rename_i i hid
          exact ihK reg el.childrenOf e (insertNameA w1 e i) [] e' k h1
        · exact ihK reg el.childrenOf e w1 [] e' k h1
      · have h1 := ihC reg el.tagOf (componentsOf el) e w e' k h
        exact h1
    · intro reg tag comps e w e' k h
      rw [processComps.eq_def]
      simp only
      split
      · exact h
      · rename_i c rest
        split
        · exact ihC reg tag rest e w e' k h
        · split
          · exact h
          · rename_i d hfd
            split
            · rename_i i1 hc1
              split
              · rename_i templ htm
                split
                · rename_i w2 hh
                  have h2 := ihH reg templ e (addTrace w (resolveGenericName c.1)) e' k h
                  rw [hh] at h2
                  split
                  · rename_i i2 hc2
                    exact ihC reg tag rest e _ e' k
                      (lookupFacet_insertFacet_mono _ e d.dname i2 e' k h2)
                  · exact h2
                  · exact h2
                · have h2 := ihH reg templ e (addTrace w (resolveGenericName c.1)) e' k h
                  exact h2
              · split
                · rename_i i2 hc2
                  exact ihC reg tag rest e _ e' k
                    (lookupFacet_insertFacet_mono _ e d.dname i2 e' k h)
                · exact h
                · exact h
            · exact h
            · exact h
    · intro reg cs pe w acc e' k h
      rw [processChildren.eq_def]
      simp only
      split
      · exact h
      · rename_i c rest
        split
        · rename_i w2 hh
          have h2 := ihH reg c w.nextId { w with nextId := w.nextId + 1 } e' k h
          rw [hh] at h2
          exact ihK reg rest pe w2 (w.nextId :: acc) e' k h2
        · have h2 := ihH reg c w.nextId { w with nextId := w.nextId + 1 } e' k h
          exact h2

def descA : Desc := ⟨"A", Shape.leafSh, some (Val.vstr "a0"), none, none, none⟩
def descB : Desc := ⟨"B", Shape.leafSh, some (Val.vstr "b0"), none, none, none⟩
def regAB : Reg := [descA, descB]
def aW0 : AWorld := ⟨1, [], [], [], [], []⟩
def w0C4 : AWorld :=
  ⟨1, [(0, ValFields.consV "A" (Val.vstr "a1") ValFields.nilV)], [], [], [], []⟩
def replB : Element := Element.elem "B" [] none []
def elBad : Element := Element.elem "A" [("Missing", none)] none []
def elW : Element := Element.elem "A" [("B", none)] none []

/-- C5 counterexample: the claim says a failed subtree assembly gives
the caller a single error value and leaves the object store without any
partially materialized output.  At the concrete document
`<A Missing>` (tag A registered, attribute Missing unregistered) the
assembly panics (the expect of lib.rs:252-254, not a returned error),
and at the moment of the panic the facet constructed for the tag entry
"A" is already attached to the target: the partial output remains. -/
theorem c5_cex_partial_output_and_panic :
    isPanicA (helper 6 regAB elBad 0 aW0) = true ∧
    lookupFacet (worldOfA (helper 6 regAB elBad 0 aW0)) 0 "A" = some (Val.vstr "a0") :=
  ⟨rfl, rfl⟩

/-- C5 amended: a failed assembly aborts by panicking (the embedded
failure paths of the helper are unwrap/expect panics; its Result error
paths are unreachable because construct_instance never returns Err),
and whatever was materialized before the failure remains in the object
store: whatever the outcome, assembly never removes a facet key, so
every facet present before the call -- in particular every facet
created earlier in the failing run -- is still present in the world the
outcome carries. -/
theorem c5_assembly_never_removes_facets (fuel : Nat) (reg : Reg) (el : Element)
    (e : Nat) (w : AWorld) (e' : Nat) (k : String)
    (h : (lookupFacet w e' k).isSome = true) :
    (lookupFacet (worldOfA (helper fuel reg el e w)) e' k).isSome = true :=
  (assembly_keeps_facets fuel).1 reg el e w e' k h

/-- C5 witness: a prior facet survives a concrete assembly run. -/
theorem c5_witness :
    (lookupFacet w0C4 0 "A").isSome = true ∧
    (lookupFacet (worldOfA (helper 6 regAB replB 0 w0C4)) 0 "A").isSome = true :=
  ⟨rfl, c5_assembly_never_removes_facets 6 regAB replB 0 w0C4 0 "A" rfl⟩

lemma facetsOfE_filter_ne (l : List (Nat × ValFields)) (x e : Nat) (h : x ≠ e) :
    facetsOfE (l.filter (fun p => p.1 != x)) e = facetsOfE l e := by
  induction l with
  | nil => rfl
  | cons p rest ih =>
    obtain ⟨e2, fs⟩ := p
    by_cases h2 : e2 = e
    · subst h2
      have hx : (e2 != x) = true := by
        simp only [bne_iff_ne, ne_eq]
        exact fun hh => h (hh.symm)
      simp [List.filter, hx, facetsOfE]
    · by_cases h3 : (e2 != x) = true
      · simp [List.filter, h3, facetsOfE, h2, ih]
      · simp [List.filter, h3, facetsOfE, h2, ih]

lemma lookupFacet_removeEntityA (w : AWorld) (x e : Nat) (k : String) (h : x ≠ e) :
    lookupFacet (removeEntityA w x) e k = lookupFacet w e k := by
  unfold lookupFacet removeEntityA
  simp only
  rw [facetsOfE_filter_ne _ _ _ h]

lemma lookupFacet_foldl_remove (ds : List Nat) (w : AWorld) (e : Nat) (k : String)
    (h : ∀ d ∈ ds, d ≠ e) :
    lookupFacet (ds.foldl removeEntityA w) e k = lookupFacet w e k := by
  induction ds generalizing w with
  | nil => rfl
  | cons d rest ih =>
    rw [List.foldl_cons, ih _ (fun d2 hd2 => h d2 (List.mem_cons_of_mem _ hd2)),
      lookupFacet_removeEntityA _ _ _ _ (h d (List.mem_cons_self _ _))]

lemma lookupFacet_despawnDescendants (fuel : Nat) (w : AWorld) (e : Nat) (k : String)
    (h : e ∉ descendantsA fuel w e) :
    lookupFacet (despawnDescendants fuel w e) e k = lookupFacet w e k := by
  unfold despawnDescendants clearChildrenA
  have : lookupFacet
      { (descendantsA fuel w e).foldl removeEntityA w with
        childrenA := ((descendantsA fuel w e).foldl removeEntityA w).childrenA.filter
          (fun p => p.1 != e) } e k
      = lookupFacet ((descendantsA fuel w e).foldl removeEntityA w) e k := rfl
  rw [this]
  exact lookupFacet_foldl_remove _ w e k (fun d hd heq => h (heq ▸ hd))

/-- C4 counterexample: the claim says that after an outer swap the
target's facet set equals exactly what a fresh assembly of the
replacement document would produce, with no facet from the prior
content surviving.  Concretely: the target entity 0 carries a facet of
type "A" from its prior content, and the replacement document is
`<B/>`.  The outer swap (despawn_descendants + insert of the new scene
handle + same-tick spawn_scene_system) completes, yet the target still
carries the old "A" facet next to the new "B" facet, while a fresh
assembly of `<B/>` produces no "A" facet at all: prior facets are never
discarded, because the swap only despawns descendants and helper only
inserts components over the existing set. -/
theorem c4_cex_residual_facet_after_outer_swap :
    isOkA (outerSwap 6 regAB 0 replB w0C4) = true ∧
    lookupFacet (worldOfA (outerSwap 6 regAB 0 replB w0C4)) 0 "A" = some (Val.vstr "a1") ∧
    lookupFacet (worldOfA (outerSwap 6 regAB 0 replB w0C4)) 0 "B" = some (Val.vstr "b0") ∧
    isOkA (spawn_scene 6 regAB replB 0 aW0) = true ∧
    lookupFacet (worldOfA (spawn_scene 6 regAB replB 0 aW0)) 0 "A" = none :=
  ⟨rfl, rfl, rfl, rfl, rfl⟩

/-- C4 amended: after an outer swap the target keeps its identity and
its descendants are despawned, but the prior facet set is not
discarded: the replacement's facets are inserted over it (overwriting
only same-typed entries), so every facet key present on the target
before the swap is still present afterwards. -/
theorem c4_outer_swap_keeps_prior_facets (fuel : Nat) (reg : Reg) (target : Nat)
    (repl : Element) (w : AWorld) (k : String)
    (hnd : target ∉ descendantsA fuel w target)
    (hfac : (lookupFacet w target k).isSome = true) :
    (lookupFacet (worldOfA (outerSwap fuel reg target repl w)) target k).isSome = true := by
  have hD := lookupFacet_despawnDescendants fuel w target k hnd
  unfold outerSwap spawn_scene_system
  split
  · rw [show worldOfA (AOut.okA (despawnDescendants fuel w target))
      = despawnDescendants fuel w target from rfl, hD]
    exact hfac
  · have h1 : (lookupFacet (markInstanced (despawnDescendants fuel w target) target)
        target k).isSome = true := by
      rw [show lookupFacet (markInstanced (despawnDescendants fuel w target) target) target k
        = lookupFacet (despawnDescendants fuel w target) target k from rfl, hD]
      exact hfac
    exact (assembly_keeps_facets fuel).1 reg repl target _ target k h1

/-- C4 witness: the amended behaviour at the counterexample's input. -/
theorem c4_witness :
    (0 ∉ descendantsA 6 w0C4 0) ∧
    (lookupFacet w0C4 0 "A").isSome = true ∧
    (lookupFacet (worldOfA (outerSwap 6 regAB 0 replB w0C4)) 0 "A").isSome = true :=
  ⟨by decide, rfl,
   c4_outer_swap_keeps_prior_facets 6 regAB 0 replB w0C4 "A" (by decide) rfl⟩

lemma processComps_trace : ∀ fuel reg tag comps e w w',
    (∀ c ∈ comps, isReserved c = false) →
    (∀ c ∈ comps, templateFree reg c = true) →
    processComps fuel reg tag comps e w = AOut.okA w' →
    w'.traceA = w.traceA
      ++ comps.flatMap (fun c => [resolveGenericName c.1, resolveGenericName c.1]) := by
  intro fuel
  induction fuel with
  | zero =>
    intro reg tag comps e w w' hnr hnt hrun
    simp [processComps] at hrun
  | succ fuel ih =>
    intro reg tag comps e w w' hnr hnt hrun
    rw [processComps.eq_def] at hrun
    simp only at hrun
    split at hrun
    · cases hrun
      simp
    · rename_i c rest
      split at hrun
      · rename_i hres
        have := hnr c (List.mem_cons_self _ _)
        rw [this] at hres
        simp at hres
      · split at hrun
        · simp at hrun
        · rename_i d hfd
          split at hrun
          · rename_i i1 hc1
            split at hrun
            · rename_i templ htm
              have htf := hnt c (List.mem_cons_self _ _)
              simp only [templateFree, hfd] at htf
              rw [Option.isNone_iff_eq_none] at htf
              by_cases hct : (resolveGenericName c.1 == tag) = true
              · rw [if_pos hct, htf] at htm
                simp at htm
              · rw [if_neg hct] at htm
                simp at htm
            · split at hrun
              · rename_i i2 hc2
                have hrec := ih reg tag rest e _ w'
                  (fun c2 hc => hnr c2 (List.mem_cons_of_mem _ hc))
                  (fun c2 hc => hnt c2 (List.mem_cons_of_mem _ hc)) hrun
                rw [show (insertFacet (addTrace (addTrace w (resolveGenericName c.1))
                    (resolveGenericName c.1)) e d.dname i2).traceA
                  = w.traceA ++ [resolveGenericName c.1] ++ [resolveGenericName c.1]
                  from rfl] at hrec
                rw [hrec]
                simp [List.append_assoc]
              · simp at hrun
              · simp at hrun
          · simp at hrun
          · simp at hrun

/-- C10: during assembly of an element with no template-expanding
attribute, each non-reserved attribute's instance (the synthetic tag
entry included) is constructed exactly twice -- once before the
template-expansion check (lib.rs:256-258) and once again before
insertion as a facet (lib.rs:270-272) -- so any side effect of
constructing the value occurs exactly twice per attribute: the
construction trace of the run appends precisely two construct events
per processed attribute, in order. -/
theorem c10_attribute_constructed_twice (fuel : Nat) (reg : Reg) (el : Element)
    (e : Nat) (w : AWorld) (w' : AWorld)
    (hch : el.childrenOf = [])
    (hnr : ∀ c ∈ componentsOf el, isReserved c = false)
    (hnt : ∀ c ∈ componentsOf el, templateFree reg c = true)
    (hrun : helper fuel reg el e w = AOut.okA w') :
    w'.traceA = w.traceA
      ++ (componentsOf el).flatMap
          (fun c => [resolveGenericName c.1, resolveGenericName c.1]) := by
  match fuel with
  | 0 => simp [helper] at hrun
  | fuel + 1 =>
    rw [helper.eq_def] at hrun
    simp only at hrun
    split at hrun
    · rename_i w1 hpc
      have htr := processComps_trace fuel reg el.tagOf (componentsOf el) e w w1 hnr hnt hpc
      rw [hch] at hrun
      match fuel, hrun with
      | 0, hrun =>
        split at hrun <;> simp [processChildren] at hrun
      | fuel + 1, hrun =>
        split at hrun
        · rename_i i hid
          rw [processChildren.eq_def] at hrun
          simp only at hrun
          cases hrun
          exact htr
        · rw [processChildren.eq_def] at hrun
          simp only at hrun
          cases hrun
          exact htr
    · rename_i r hpc
      exact absurd hrun (hpc w')

/-- C10 witness: assembling `<A B>` (both types registered, neither a
template) constructs each of the two entries twice, in order. -/
theorem c10_witness :
    (elW.childrenOf = []) ∧
    helper 8 regAB elW 0 aW0
        = AOut.okA (worldOfA (helper 8 regAB elW 0 aW0)) ∧
    (worldOfA (helper 8 regAB elW 0 aW0)).traceA
        = aW0.traceA ++ (componentsOf elW).flatMap
            (fun c => [resolveGenericName c.1, resolveGenericName c.1]) ∧
    (worldOfA (helper 8 regAB elW 0 aW0)).traceA = ["A", "A", "B", "B"] :=
  ⟨rfl, rfl,
   c10_attribute_constructed_twice 8 regAB elW 0 aW0 (worldOfA (helper 8 regAB elW 0 aW0))
     rfl (by decide) (by decide) rfl,
   rfl⟩

end BevyHtml
